import Mathlib

/-!
Shallow embedding of `filter_rspamd.go`, an OpenSMTPD filter that forwards
each message to a local rspamd instance and turns the verdict into an
accept/reject decision, together with theorems settling the specification's
claims.

Modelling conventions:
* Go strings are Lean `String`; all string processing is written by
  structural recursion over `String.data` so that closed terms reduce in the
  kernel.
* Go maps are insertion-ordered association lists (Go's iteration order is
  unspecified; the list order stands for one arbitrary iteration order).
  A Go `nil` map is `Option.none`; writing to it panics, which the handler
  models by returning `none`.
* A handler that panics (slice index out of range, nil-map write, nil
  function call) returns `none`; the event loop propagates this as `none`,
  meaning the process stops and later lines are not processed.  A `commit`
  that would block forever on a never-written channel is also `none`
  (the single-threaded loop never makes progress again).
* The one goroutine per scan is modelled synchronously: the outcome of the
  `rspamdPost` HTTP call is an `Oracle` value supplied from a per-run list,
  the lines the goroutine prints are emitted at dispatch time, and the
  single value it sends on the channel is stored in the session's `ch`
  field for the later `commit` to consume.  The HTTP request itself is
  recorded as an `Out.scanReq` output carrying its header map and body.
* `float32` scores are abstracted as the strings their `%v` rendering
  produces; no claim inspects the numeric value.
-/

/-- Structural model of Go `strings.Split` with a one-character separator,
recursing over the character list: `split "" = [""]`, separators at the ends
produce empty fields. -/
def charSplit (p : Char → Bool) : List Char → List (List Char)
  | [] => [[]]
  | c :: t =>
    if p c then [] :: charSplit p t
    else match charSplit p t with
      | [] => [[c]]
      | l :: ls => (c :: l) :: ls

/-- Go `strings.Split s sep` for a single-character separator `sep`. -/
def goSplit (s : String) (sep : Char) : List String :=
  (charSplit (fun c => c = sep) s.data).map String.mk

/-- Go map write `m[k] = v` on a `map[string]string`, as an association
list: replace the existing entry for `k` or append a new one. -/
def mapSet (l : List (String × String)) (k v : String) : List (String × String) :=
  match l with
  | [] => [(k, v)]
  | (k', v') :: t => if k' = k then (k, v) :: t else (k', v') :: mapSet t k v

/-- Go map read `m[k]` on a `map[string]string` association list. -/
def mlookup (l : List (String × String)) (k : String) : Option String :=
  match l with
  | [] => none
  | (k', v') :: t => if k' = k then some v' else mlookup t k

/-- Go map write `m[k] = v` on a `map[string][]string` association list. -/
def hdrSet (l : List (String × List String)) (k : String) (v : List String) :
    List (String × List String) :=
  match l with
  | [] => [(k, v)]
  | (k', v') :: t => if k' = k then (k, v) :: t else (k', v') :: hdrSet t k v

/-- `textproto` building a MIME header map: append one value to the slice
stored under `k` (creating the entry if absent). -/
def hdrAdd (l : List (String × List String)) (k v : String) :
    List (String × List String) :=
  match l with
  | [] => [(k, [v])]
  | (k', v') :: t => if k' = k then (k, v' ++ [v]) :: t else (k', v') :: hdrAdd t k v

/-- Decoded JSON body of a scoring-service response (`rspamdResponse` in the
source).  The two `float32` fields are abstracted as their rendered form. -/
structure RspamdResponse where
  score : String
  requiredScore : String
  subject : String
  action : String
  dkimSig : String
deriving DecidableEq, Repr

/-- Outcome of one `rspamdPost` call: a decoded response, or a transport or
JSON-decode error (the caller only inspects `err != nil`). -/
abbrev Oracle := Except Unit RspamdResponse

/-- One line of observable output, plus the recorded scoring-service
request.  `dataline`, `resultReject` and `resultProceed` are the
`filter-dataline` and `filter-result` wire lines the program prints. -/
inductive Out where
  | scanReq (headers : List (String × String)) (body : String)
  | dataline (token id content : String)
  | resultReject (token id reason : String)
  | resultProceed (token id : String)
deriving DecidableEq, Repr

/-- The `session` struct: pending-verdict channel, `control` metadata map
(`none` = Go `nil`), session id, and the `strings.Builder` payload. -/
structure Session where
  ch : Option String
  control : Option (List (String × String))
  id : String
  payload : String
deriving DecidableEq, Repr

/-- Write one key into the session's control map; writing to a Go `nil` map
panics, modelled as `none`. -/
def ctrlWrite (s : Session) (k v : String) : Option Session :=
  match s.control with
  | none => none
  | some m => some { s with control := some (mapSet m k v) }

/-! Model of the slice of the Go standard library that `dataOutput` uses:
`net/mail.ReadMessage` (via `net/textproto.ReadMIMEHeader`) and
`bufio.Scanner`. -/

/-- Space or horizontal tab, the whitespace `textproto` folds and trims. -/
def isWSChar (c : Char) : Bool := c = ' ' || c = '\t'

/-- Drop leading whitespace from a character list. -/
def trimLeftWS (l : List Char) : List Char := l.dropWhile isWSChar

/-- Drop leading and trailing whitespace from a character list. -/
def trimWS (l : List Char) : List Char :=
  ((trimLeftWS l).reverse.dropWhile isWSChar).reverse

/-- Characters allowed in a MIME header key token
(`validHeaderFieldByte` in `net/textproto`). -/
def isTokenChar (c : Char) : Bool :=
  c.isAlpha || c.isDigit || c = '!' || c = '#' || c = '$' || c = '%' ||
  c = '&' || c.toNat = 39 || c = '*' || c = '+' || c = '-' || c = '.' ||
  c = '^' || c = '_' || c.toNat = 96 || c = '|' || c = '~'

/-- Case-normalise a key: upper-case the first letter and every letter
after a hyphen, lower-case the rest. -/
def canonChars : Bool → List Char → List Char
  | _, [] => []
  | up, c :: t => (if up then c.toUpper else c.toLower) :: canonChars (c = '-') t

/-- `textproto.CanonicalMIMEHeaderKey`: canonicalise keys made of token
characters, leave any other key unchanged. -/
def canonKey (k : String) : String :=
  if k.data.all isTokenChar then String.mk (canonChars true k.data) else k

/-- Split a character list at the first colon, `none` if there is none. -/
def splitColon : List Char → Option (List Char × List Char)
  | [] => none
  | c :: t =>
    if c = ':' then some ([], t)
    else (splitColon t).map (fun r => (c :: r.1, r.2))

/-- Parse one folded header line into key and value: split at the first
colon, reject an empty key or a key containing whitespace, canonicalise the
key and trim the value. -/
def parseHeaderLine (l : String) : Option (String × String) :=
  match splitColon l.data with
  | none => none
  | some (k, v) =>
    if k = [] || k.any isWSChar then none
    else some (canonKey (String.mk k), String.mk (trimWS v))

/-- Fold continuation lines (lines starting with whitespace) into the
preceding header line, joined by a single space. -/
def foldHeaderAux (cur : List Char) : List String → List (List Char)
  | [] => [cur]
  | l :: t =>
    if isWSChar (l.data.headI) then foldHeaderAux (cur ++ ' ' :: trimWS l.data) t
    else cur :: foldHeaderAux l.data t

/-- Fold a header section's raw lines into logical header lines. -/
def foldHeaderLines : List String → List String
  | [] => []
  | l :: t => (foldHeaderAux l.data t).map String.mk

/-- Parse a list of folded header lines left to right, accumulating the
header map; any malformed line aborts the whole parse. -/
def parseFieldsAux (m : List (String × List String)) :
    List String → Option (List (String × List String))
  | [] => some m
  | l :: t =>
    match parseHeaderLine l with
    | none => none
    | some (k, v) => parseFieldsAux (hdrAdd m k v) t

/-- Parse a header section: the first line must not start with whitespace
(`malformed MIME header initial line`), then fold and parse every line. -/
def parseHeaderBlock (ls : List String) : Option (List (String × List String)) :=
  match ls with
  | [] => some []
  | l :: _ =>
    if isWSChar (l.data.headI) then none
    else parseFieldsAux [] (foldHeaderLines ls)

/-- Split raw lines at the first blank line; `none` if the input ends
before a blank line (`ReadMIMEHeader` reports an error at EOF).  The last
element of a newline-split is the unterminated trailing fragment, not a
line, so an empty final element is EOF right after a newline, not a blank
line. -/
def splitAtBlank : List String → Option (List String × List String)
  | [] => none
  | l :: t =>
    if l = "" then (if t = [] then none else some ([], t))
    else (splitAtBlank t).map (fun r => (l :: r.1, r.2))

/-- Modelled from the Go standard library `net/mail.ReadMessage` as used by
`dataOutput`: the header block up to the first blank line, parsed with
continuation folding and key canonicalisation, and the body's raw
newline-split lines.  `none` where `ReadMessage` returns an error (empty
input, no blank separator line, malformed header line). -/
def readMessage (data : String) : Option (List (String × List String) × List String) :=
  match splitAtBlank (goSplit data '\n') with
  | none => none
  | some (hls, rest) =>
    match parseHeaderBlock hls with
    | none => none
    | some hdr => some (hdr, rest)

/-- Lines produced by `bufio.Scanner` over the body text whose raw
newline-split is `rest`: a trailing newline does not produce a final empty
line. -/
def scannerLines (rest : List String) : List String :=
  if rest.getLast? = some "" then rest.dropLast else rest

/-- Rejection reason chosen by the `switch resp.Action` in `dataOutput`. -/
def reasonFor (action : String) : String :=
  match action with
  | "reject" => "550 message rejected"
  | "greylist" => "421 greylisted"
  | "soft reject" => "451 try again later"
  | _ => ""

/-- Header-map mutation performed by the `switch resp.Action` in
`dataOutput`. -/
def mutateHeader (r : RspamdResponse) (hdr : List (String × List String)) :
    List (String × List String) :=
  match r.action with
  | "add header" =>
      hdrSet (hdrSet hdr "X-Spam" ["yes"]) "X-Spam-Score"
        [r.score ++ " / " ++ r.requiredScore]
  | "rewrite subject" => hdrSet hdr "Subject" [r.subject]
  | _ => hdr

/-- Pure model of the goroutine body of `dataOutput`: post the request
(recorded as `Out.scanReq`), and either fail with the temporary-failure
verdict or parse the message, mutate the headers, replay the message
line by line and resolve the verdict.  Returns the emitted outputs and the
list of all values written to the result channel. -/
def dataOutputRun (headers : Option (List (String × String))) (token id data : String)
    (orc : Oracle) : List Out × List String :=
  let req := Out.scanReq (headers.getD []) data
  match orc with
  | .error _ => ([req], ["421 Temporary failure"])
  | .ok resp =>
    match readMessage data with
    | none => ([req], ["421 Temporary failure"])
    | some (hdr, rest) =>
      let m := mutateHeader resp hdr
      let dkim :=
        if resp.dkimSig ≠ "" then
          [Out.dataline token id ("DKIM-Signature: " ++ resp.dkimSig)]
        else []
      let hdrLines :=
        m.map (fun kv => Out.dataline token id (kv.1 ++ ": " ++ String.intercalate "," kv.2))
      let bodyLines := (scannerLines rest).map (Out.dataline token id)
      (req :: (dkim ++ hdrLines ++
        (Out.dataline token id "" :: (bodyLines ++ [Out.dataline token id "."]))),
       [reasonFor resp.action])

/-! The per-event handlers registered in `main`'s registry. -/

/-- `linkConnect`: record `Pass`, the origin address (first colon-separated
component of the local-address field, unless it is `local`) and the
reverse-DNS hostname if non-empty. -/
def linkConnect (s : Session) (args : List String) : Option (Session × List Out) :=
  match args.get? 6, args.get? 8 with
  | some rdns, some laddr =>
    let p0 := (goSplit laddr ':').headI
    (ctrlWrite s "Pass" "all").bind fun s1 =>
      ((if p0 ≠ "local" then ctrlWrite s1 "Ip" p0 else some s1).bind fun s2 =>
        ((if rdns ≠ "" then ctrlWrite s2 "Hostname" rdns else some s2).map
          fun s3 => (s3, [])))
  | _, _ => none

/-- `linkIdentify`: record the announced HELO name. -/
def linkIdentify (s : Session) (args : List String) : Option (Session × List Out) :=
  match args.get? 6 with
  | some helo => (ctrlWrite s "Helo" helo).map (fun s1 => (s1, []))
  | none => none

/-- `txBegin`: record the queue identifier. -/
def txBegin (s : Session) (args : List String) : Option (Session × List Out) :=
  match args.get? 6 with
  | some qid => (ctrlWrite s "Queue-Id" qid).map (fun s1 => (s1, []))
  | none => none

/-- `txMail`: on status `ok`, record the envelope sender. -/
def txMail (s : Session) (args : List String) : Option (Session × List Out) :=
  match args.get? 7, args.get? 8 with
  | some mailFrom, some status =>
    if status = "ok" then (ctrlWrite s "From" mailFrom).map (fun s1 => (s1, []))
    else some (s, [])
  | _, _ => none

/-- `txRcpt`: on status `ok`, record the envelope recipient. -/
def txRcpt (s : Session) (args : List String) : Option (Session × List Out) :=
  match args.get? 7, args.get? 8 with
  | some rcptTo, some status =>
    if status = "ok" then (ctrlWrite s "Rcpt" rcptTo).map (fun s1 => (s1, []))
    else some (s, [])
  | _, _ => none

/-- `txData`: on status `ok`, set the control map to `nil`. -/
def txData (s : Session) (args : List String) : Option (Session × List Out) :=
  match args.get? 7 with
  | some status =>
    if status = "ok" then some ({ s with control := none }, [])
    else some (s, [])
  | none => none

/-- `txCleanup` (for both `tx-commit` and `tx-rollback`): set the control
map to `nil`. -/
def txCleanup (s : Session) (_args : List String) : Option (Session × List Out) :=
  some ({ s with control := none }, [])

/-- `filterCommit`: receive the verdict from the channel and print the
`filter-result` decision line.  A receive on a channel that was never
dispatched, or was already consumed, blocks forever (`none`); consuming the
value empties the slot. -/
def filterCommit (s : Session) (args : List String) : Option (Session × List Out) :=
  match args.get? 6 with
  | some token =>
    match s.ch with
    | none => none
    | some reason =>
      if reason ≠ "" then
        some ({ s with ch := none }, [Out.resultReject token s.id reason])
      else
        some ({ s with ch := none }, [Out.resultProceed token s.id])
  | none => none

/-- `filterDataLine`: append a non-marker line plus a newline to the
payload builder; on the `"."` marker, dispatch `dataOutput` with the
control map, token, id and accumulated payload (consuming one oracle) and
store the channel.  The payload builder is NOT reset. -/
def filterDataLine (s : Session) (args : List String) (ors : List Oracle) :
    Option (Session × List Out × List Oracle) :=
  match args.get? 6, args.get? 7 with
  | some token, some line =>
    if line ≠ "." then
      some ({ s with payload := s.payload ++ line ++ "\n" }, [], ors)
    else
      let r := dataOutputRun s.control token s.id s.payload (ors.headD (Except.error ()))
      some ({ s with ch := some r.2.headI }, r.1, ors.tail)
  | _, _ => none

/-- Dispatch through `main`'s registry: the handler registered for each
event name; an event with no registry entry yields the zero struct whose
`fn` is `nil`, and calling it panics (`none`).  `link-disconnect` is
registered with a `nil` handler as well. -/
def applyEvent (event : String) (s : Session) (fields : List String)
    (ors : List Oracle) : Option (Session × List Out × List Oracle) :=
  match event with
  | "link-connect" => (linkConnect s fields).map (fun r => (r.1, r.2, ors))
  | "link-identify" => (linkIdentify s fields).map (fun r => (r.1, r.2, ors))
  | "tx-begin" => (txBegin s fields).map (fun r => (r.1, r.2, ors))
  | "tx-data" => (txData s fields).map (fun r => (r.1, r.2, ors))
  | "tx-mail" => (txMail s fields).map (fun r => (r.1, r.2, ors))
  | "tx-rcpt" => (txRcpt s fields).map (fun r => (r.1, r.2, ors))
  | "tx-commit" => (txCleanup s fields).map (fun r => (r.1, r.2, ors))
  | "tx-rollback" => (txCleanup s fields).map (fun r => (r.1, r.2, ors))
  | "commit" => (filterCommit s fields).map (fun r => (r.1, r.2, ors))
  | "data-line" => filterDataLine s fields ors
  | _ => none

/-- Session registry lookup, Go `sessions[id]` (`none` = `nil`). -/
def slookup (m : List (String × Session)) (k : String) : Option Session :=
  match m with
  | [] => none
  | (k', s) :: t => if k' = k then some s else slookup t k

/-- Session registry write, Go `sessions[id] = s`. -/
def sinsert (m : List (String × Session)) (k : String) (s : Session) :
    List (String × Session) :=
  match m with
  | [] => [(k, s)]
  | (k', s') :: t => if k' = k then (k, s) :: t else (k', s') :: sinsert t k s

/-- Session registry delete, Go `delete(sessions, id)`. -/
def sremove (m : List (String × Session)) (k : String) : List (String × Session) :=
  match m with
  | [] => []
  | (k', s') :: t => if k' = k then sremove t k else (k', s') :: sremove t k

/-- The whole mutable state of `main`'s loop: the session registry plus the
stream of scoring-service outcomes the asynchronous scans will observe, in
dispatch order. -/
structure World where
  sessions : List (String × Session)
  oracles : List Oracle
deriving Repr

/-- One iteration of `main`'s loop on one input line: split the line on
`|`, read `fields[4]` and `fields[5]` (panicking on shorter lines), delete
the session on `link-disconnect`, create it on `link-connect`, and for a
live session run the registered handler.  `none` models a panic or a
deadlock: the process makes no further progress. -/
def step (w : World) (line : String) : Option (World × List Out) :=
  let fields := goSplit line '|'
  match fields.get? 4, fields.get? 5 with
  | some event, some id =>
    if event = "link-disconnect" then
      some ({ w with sessions := sremove w.sessions id }, [])
    else
      let sessions :=
        if event = "link-connect" then
          sinsert w.sessions id ⟨none, some [], id, ""⟩
        else w.sessions
      match slookup sessions id with
      | none => some ({ w with sessions := sessions }, [])
      | some s =>
        match applyEvent event s fields w.oracles with
        | none => none
        | some (s', outs, ors') => some (⟨sinsert sessions id s', ors'⟩, outs)
  | _, _ => none

/-- Run the loop over a list of input lines, concatenating the outputs; a
`none` step aborts the whole run (the process stops, later lines are
never processed). -/
def run (w : World) : List String → Option (World × List Out)
  | [] => some (w, [])
  | l :: ls =>
    match step w l with
    | none => none
    | some (w', outs) => (run w' ls).map (fun r => (r.1, outs ++ r.2))

/-- Project the scoring-service requests (header map and body) out of an
output trace, in order. -/
def scanReqs (outs : List Out) : List (List (String × String) × String) :=
  outs.filterMap (fun o =>
    match o with
    | Out.scanReq h b => some (h, b)
    | _ => none)

/-! Helper lemmas. -/

/-- Appending to a non-empty string on the left keeps it non-empty. -/
theorem strAppend_ne_empty_left (a b : String) (ha : a ≠ "") : a ++ b ≠ "" := by
  intro hEq
  apply ha
  have hd := congrArg String.data hEq
  rw [String.data_append] at hd
  exact String.ext (List.append_eq_nil.mp hd).1

/-- Appending a non-empty string on the right keeps the result non-empty. -/
theorem strAppend_ne_empty_right (a b : String) (hb : b ≠ "") : a ++ b ≠ "" := by
  intro hEq
  apply hb
  have hd := congrArg String.data hEq
  rw [String.data_append] at hd
  exact String.ext (List.append_eq_nil.mp hd).2

/-- Header mutation is the identity for every action tag other than
`add header` and `rewrite subject`. -/
theorem mutateHeader_eq_self (r : RspamdResponse) (hdr : List (String × List String))
    (h1 : r.action ≠ "add header") (h2 : r.action ≠ "rewrite subject") :
    mutateHeader r hdr = hdr := by
  unfold mutateHeader
  split <;> simp_all

/-- The switch's default arm: any unrecognised or empty action tag maps to
the empty rejection reason. -/
theorem reasonFor_eq_empty (a : String) (h1 : a ≠ "reject") (h2 : a ≠ "greylist")
    (h3 : a ≠ "soft reject") : reasonFor a = "" := by
  unfold reasonFor
  split <;> simp_all

/-- A key just deleted from the session registry is no longer present. -/
theorem slookup_sremove_self (m : List (String × Session)) (k : String) :
    slookup (sremove m k) k = none := by
  induction m with
  | nil => rfl
  | cons a t ih =>
    obtain ⟨k', s'⟩ := a
    by_cases hk : k' = k <;> simp [sremove, slookup, hk, ih]

/-- Deleting an absent key from the session registry changes nothing. -/
theorem sremove_eq_self (m : List (String × Session)) (k : String)
    (h : slookup m k = none) : sremove m k = m := by
  induction m with
  | nil => rfl
  | cons a t ih =>
    obtain ⟨k', s'⟩ := a
    by_cases hk : k' = k
    · simp [slookup, hk] at h
    · simp [slookup, hk] at h
      simp [sremove, hk, ih h]

/-! Concrete inputs used by the scenario theorems. -/

/-- Scoring response with action `add header`, as in the specification's
concrete scenario. -/
def respAddHeader : RspamdResponse := ⟨"1.1", "15", "", "add header", ""⟩

/-- Scoring response with an empty action tag. -/
def respNoAction : RspamdResponse := ⟨"0", "15", "", "", ""⟩

/-- The specification's concrete scenario: connect, identify, tx-begin,
mail-from ok, rcpt-to ok, data-begin ok, the data lines of
`"Subject: hi\n\nbody\n"`, the `"."` marker, then commit. -/
def scenarioLines : List String := [
  "report|0.5|t|smtp-in|link-connect|s1|mx.example|mx.example|203.0.113.7:4321",
  "report|0.5|t|smtp-in|link-identify|s1|mx.example",
  "report|0.5|t|smtp-in|tx-begin|s1|Q1",
  "report|0.5|t|smtp-in|tx-mail|s1|Q1|a@x|ok",
  "report|0.5|t|smtp-in|tx-rcpt|s1|Q1|b@y|ok",
  "report|0.5|t|smtp-in|tx-data|s1|Q1|ok",
  "filter|0.5|t|smtp-in|data-line|s1|T1|Subject: hi",
  "filter|0.5|t|smtp-in|data-line|s1|T1|",
  "filter|0.5|t|smtp-in|data-line|s1|T1|body",
  "filter|0.5|t|smtp-in|data-line|s1|T1|.",
  "filter|0.5|t|smtp-in|commit|s1|T1"]

/-- Two transactions on one session.  The second transaction streams its
data lines directly after the first commit: a well-formed second
transaction cannot even be reached, because its `tx-begin` writes to the
control map that `tx-data` set to `nil` (see
`well_formed_second_transaction_panics`). -/
def twoTxLines : List String := [
  "report|0.5|t|smtp-in|link-connect|s1|mx|mx|203.0.113.7:4321",
  "report|0.5|t|smtp-in|tx-begin|s1|Q1",
  "report|0.5|t|smtp-in|tx-mail|s1|Q1|a@x|ok",
  "report|0.5|t|smtp-in|tx-rcpt|s1|Q1|b@y|ok",
  "report|0.5|t|smtp-in|tx-data|s1|Q1|ok",
  "filter|0.5|t|smtp-in|data-line|s1|T1|A",
  "filter|0.5|t|smtp-in|data-line|s1|T1|.",
  "filter|0.5|t|smtp-in|commit|s1|T1",
  "report|0.5|t|smtp-in|tx-commit|s1|Q1|ok",
  "filter|0.5|t|smtp-in|data-line|s1|T2|B",
  "filter|0.5|t|smtp-in|data-line|s1|T2|.",
  "filter|0.5|t|smtp-in|commit|s1|T2"]

/-- A fully well-formed second transaction on the same session: after the
first commit and `tx-commit`, a fresh `tx-begin` arrives. -/
def wellFormedSecondTxLines : List String :=
  twoTxLines.take 9 ++ ["report|0.5|t|smtp-in|tx-begin|s1|Q2"]

/-- C1: in the specification's concrete well-formed scenario exactly one
scan request is issued and its body is the accumulated payload
`"Subject: hi\n\nbody\n"`, but its header map is EMPTY: the `tx-data` "ok"
handler has already set the control map to `nil` before the first
`data-line` arrives, so none of Ip/Helo/Queue-Id/From/Rcpt reaches the
scoring service, contrary to the claim. -/
theorem scenario_scan_request_headers_empty :
    (run ⟨[], [Except.ok respAddHeader]⟩ scenarioLines).map (fun r => scanReqs r.2) =
      some [([], "Subject: hi\n\nbody\n")] := by decide

/-- C6: the payload builder is never reset.  After the first transaction's
scan is dispatched with body `"A\n"`, the second transaction's data lines
are appended to the same builder and its scan request carries
`"A\nB\n"`, not `"B\n"`; moreover a fully well-formed second transaction
panics at `tx-begin` (write to the `nil` control map) before any body line
can be accumulated at all. -/
theorem second_transaction_payload_not_reset :
    (run ⟨[], [Except.ok respNoAction, Except.ok respNoAction]⟩ twoTxLines).map
        (fun r => scanReqs r.2) =
      some [([], "A\n"), ([], "A\nB\n")] ∧
    run ⟨[], [Except.ok respNoAction]⟩ wellFormedSecondTxLines = none := by
  exact ⟨by decide, rfl⟩

/-- C8 counterexample: a line naming an event with no registry entry, for
an identifier with no live session, is NOT fatal: the step succeeds with no
output and no state change, and the following line is still processed (here
it creates session s2). -/
theorem unknown_event_without_session_not_fatal :
    run ⟨[], []⟩
        ["a|b|c|d|bogus-event|s9", "report|0|t|smtp-in|link-connect|s2|r|r|local:1"] =
      some (⟨[("s2", ⟨none, some [("Pass", "all"), ("Hostname", "r")], "s2", ""⟩)], []⟩,
        []) := rfl

/-- C2: whenever the scan request fails with a transport or decode error,
the single value written to the pending-verdict channel is the
temporary-failure reason `421 Temporary failure`, and the commit handler
that consumes it emits a reject decision with that reason — never a
proceed. -/
theorem scan_failure_resolves_temp_failure_reject
    (ctrl : Option (List (String × String))) (tok sid data : String) (e : Unit)
    (c2 : Option (List (String × String))) (sid2 pay2 : String)
    (a0 a1 a2 a3 a4 a5 tok2 : String) (rest : List String) :
    (dataOutputRun ctrl tok sid data (Except.error e)).2 = ["421 Temporary failure"] ∧
    filterCommit
        ⟨some ((dataOutputRun ctrl tok sid data (Except.error e)).2.headI), c2, sid2, pay2⟩
        (a0 :: a1 :: a2 :: a3 :: a4 :: a5 :: tok2 :: rest) =
      some (⟨none, c2, sid2, pay2⟩, [Out.resultReject tok2 sid2 "421 Temporary failure"]) :=
  ⟨rfl, rfl⟩

/-- C9: the pending-verdict channel is a single-resolution primitive: on
every execution path of the scan task (transport failure, malformed
message, success) exactly one value is written; the commit handler's read
consumes the value and empties the slot, and a commit whose slot holds no
value blocks forever, so no second read can complete. -/
theorem verdict_channel_single_resolution
    (ctrl : Option (List (String × String))) (tok sid data : String) (orc : Oracle)
    (r : String) (c2 : Option (List (String × String))) (sid2 pay2 : String)
    (a0 a1 a2 a3 a4 a5 tok2 : String) (rest args2 : List String) :
    (dataOutputRun ctrl tok sid data orc).2.length = 1 ∧
    filterCommit ⟨some r, c2, sid2, pay2⟩ (a0 :: a1 :: a2 :: a3 :: a4 :: a5 :: tok2 :: rest) =
      some (⟨none, c2, sid2, pay2⟩,
        if r ≠ "" then [Out.resultReject tok2 sid2 r] else [Out.resultProceed tok2 sid2]) ∧
    filterCommit ⟨none, c2, sid2, pay2⟩ args2 = none := by
  refine ⟨?_, ?_, ?_⟩
  · cases orc with
    | error e => rfl
    | ok resp =>
      cases hrm : readMessage data with
      | none => simp [dataOutputRun, hrm]
      | some pr =>
        obtain ⟨hdr, rest2⟩ := pr
        simp [dataOutputRun, hrm]
  · by_cases hr : r = "" <;> simp [filterCommit, hr]
  · cases h6 : args2[6]? <;> simp [filterCommit, h6]

/-- C3: for every successfully parsed verdict on a parseable message, the
single resolved verdict value is exactly the reason the action switch
selects — `550 message rejected` for `reject`, `421 greylisted` for
`greylist`, `451 try again later` for `soft reject`, and empty for
`add header`, `rewrite subject` or any other tag — and the commit handler
consuming it emits a reject decision with that reason when it is non-empty
and a proceed decision otherwise. -/
theorem action_tag_decision_mapping
    (ctrl : Option (List (String × String))) (tok sid data : String)
    (resp : RspamdResponse) (hdr : List (String × List String)) (rest : List String)
    (h : readMessage data = some (hdr, rest))
    (c2 : Option (List (String × String))) (sid2 pay2 : String)
    (a0 a1 a2 a3 a4 a5 tok2 : String) (tl : List String) :
    (dataOutputRun ctrl tok sid data (Except.ok resp)).2 = [reasonFor resp.action] ∧
    (resp.action = "reject" → reasonFor resp.action = "550 message rejected") ∧
    (resp.action = "greylist" → reasonFor resp.action = "421 greylisted") ∧
    (resp.action = "soft reject" → reasonFor resp.action = "451 try again later") ∧
    (resp.action ≠ "reject" → resp.action ≠ "greylist" → resp.action ≠ "soft reject" →
      reasonFor resp.action = "") ∧
    filterCommit ⟨some (reasonFor resp.action), c2, sid2, pay2⟩
        (a0 :: a1 :: a2 :: a3 :: a4 :: a5 :: tok2 :: tl) =
      some (⟨none, c2, sid2, pay2⟩,
        if reasonFor resp.action ≠ "" then [Out.resultReject tok2 sid2 (reasonFor resp.action)]
        else [Out.resultProceed tok2 sid2]) := by
  refine ⟨?_, ?_, ?_, ?_, ?_, ?_⟩
  · simp [dataOutputRun, h]
  · intro ha; rw [ha]; rfl
  · intro ha; rw [ha]; rfl
  · intro ha; rw [ha]; rfl
  · exact reasonFor_eq_empty resp.action
  · by_cases hr : reasonFor resp.action = "" <;> simp [filterCommit, hr]

/-- C3 witness: for the concrete message `"Subject: hi\n\nbody\n"` and a
verdict with action `reject`, the resolved verdict is
`550 message rejected`. -/
theorem action_tag_decision_mapping_witness :
    (dataOutputRun none "T" "s1" "Subject: hi\n\nbody\n"
        (Except.ok ⟨"1", "15", "", "reject", ""⟩)).2 = ["550 message rejected"] :=
  (action_tag_decision_mapping none "T" "s1" "Subject: hi\n\nbody\n"
    ⟨"1", "15", "", "reject", ""⟩ [("Subject", ["hi"])] ["body", ""] rfl
    none "s1" "" "a" "b" "c" "d" "e" "f" "T" []).1

/-- C5: whenever the verdict carries a non-empty signature value, the first
`filter-dataline` output of the reconstruction — written before any header
of the original message, wherever (or whether) a signature header occurred
in it — is the `DKIM-Signature` header built from the verdict. -/
theorem dkim_signature_emitted_first
    (ctrl : Option (List (String × String))) (tok sid data : String)
    (resp : RspamdResponse) (hdr : List (String × List String)) (rest : List String)
    (h : readMessage data = some (hdr, rest)) (hsig : resp.dkimSig ≠ "") :
    ∃ tl, (dataOutputRun ctrl tok sid data (Except.ok resp)).1 =
      Out.scanReq (ctrl.getD []) data ::
        Out.dataline tok sid ("DKIM-Signature: " ++ resp.dkimSig) :: tl := by
  refine ⟨(mutateHeader resp hdr).map
      (fun kv => Out.dataline tok sid (kv.1 ++ ": " ++ String.intercalate "," kv.2)) ++
    (Out.dataline tok sid "" ::
      ((scannerLines rest).map (Out.dataline tok sid) ++ [Out.dataline tok sid "."])), ?_⟩
  simp [dataOutputRun, h, hsig]

/-- C5 witness: for a message that itself contains a `Dkim-Signature`
header in the middle of its header block, the verdict's signature is still
the first line emitted. -/
theorem dkim_signature_emitted_first_witness :
    ∃ tl, (dataOutputRun none "T" "s1"
        "From: a@x\nDKIM-Signature: old\nSubject: hi\n\nbody\n"
        (Except.ok ⟨"1", "15", "", "", "fresh-sig"⟩)).1 =
      Out.scanReq [] "From: a@x\nDKIM-Signature: old\nSubject: hi\n\nbody\n" ::
        Out.dataline "T" "s1" ("DKIM-Signature: " ++ "fresh-sig") :: tl :=
  dkim_signature_emitted_first none "T" "s1"
    "From: a@x\nDKIM-Signature: old\nSubject: hi\n\nbody\n"
    ⟨"1", "15", "", "", "fresh-sig"⟩
    [("From", ["a@x"]), ("Dkim-Signature", ["old"]), ("Subject", ["hi"])]
    ["body", ""] rfl (by decide)

/-- C4: for every parseable message and any verdict whose action performs
no header mutation, the reconstruction's output is some list of lines not
containing the blank separator, then the blank separator, then the body
lines verbatim and in original order, then the `"."` end-of-data marker. -/
theorem body_lines_replayed_verbatim
    (ctrl : Option (List (String × String))) (tok sid data : String)
    (resp : RspamdResponse) (hdr : List (String × List String)) (rest : List String)
    (h : readMessage data = some (hdr, rest))
    (hm1 : resp.action ≠ "add header") (hm2 : resp.action ≠ "rewrite subject") :
    ∃ pre, (dataOutputRun ctrl tok sid data (Except.ok resp)).1 =
        pre ++ Out.dataline tok sid "" ::
          ((scannerLines rest).map (Out.dataline tok sid) ++ [Out.dataline tok sid "."]) ∧
      Out.dataline tok sid "" ∉ pre := by
  refine ⟨Out.scanReq (ctrl.getD []) data ::
    ((if resp.dkimSig ≠ "" then
        [Out.dataline tok sid ("DKIM-Signature: " ++ resp.dkimSig)] else []) ++
      hdr.map (fun kv => Out.dataline tok sid (kv.1 ++ ": " ++ String.intercalate "," kv.2))),
    ?_, ?_⟩
  · simp [dataOutputRun, h, mutateHeader_eq_self resp hdr hm1 hm2]
  · intro hmem
    simp only [List.mem_cons, List.mem_append, List.mem_map] at hmem
    rcases hmem with h1 | h2 | ⟨kv, _, hEq⟩
    · exact absurd h1 (by simp)
    · by_cases hs : resp.dkimSig = ""
      · simp [hs] at h2
      · simp [hs] at h2
        exact strAppend_ne_empty_left "DKIM-Signature: " resp.dkimSig (by decide) h2.symm
    · have hc : kv.1 ++ ": " ++ String.intercalate "," kv.2 = "" := by
        simpa using hEq
      exact strAppend_ne_empty_left (kv.1 ++ ": ") (String.intercalate "," kv.2)
        (strAppend_ne_empty_right kv.1 ": " (by decide)) hc

/-- C4 witness: for the concrete message `"Subject: hi\n\nbody\n"` and a
`reject` verdict (no header mutation), the output is a blank-free set of
lines, the blank separator, the body line `body`, then the marker. -/
theorem body_lines_replayed_verbatim_witness :
    ∃ pre, (dataOutputRun none "T" "s1" "Subject: hi\n\nbody\n"
        (Except.ok ⟨"1", "15", "", "reject", ""⟩)).1 =
        pre ++ Out.dataline "T" "s1" "" ::
          ((scannerLines ["body", ""]).map (Out.dataline "T" "s1") ++
            [Out.dataline "T" "s1" "."]) ∧
      Out.dataline "T" "s1" "" ∉ pre :=
  body_lines_replayed_verbatim none "T" "s1" "Subject: hi\n\nbody\n"
    ⟨"1", "15", "", "reject", ""⟩ [("Subject", ["hi"])] ["body", ""] rfl
    (by decide) (by decide)

/-- C7: processing a `link-disconnect` line removes the session from the
registry and produces no output, and any later line whose event is not
`link-connect` and whose identifier has no live session is a no-op: the
state is unchanged, no handler runs and nothing is printed. -/
theorem disconnect_discards_session_then_noop
    (w : World) (ld l2 : String) (sid ev2 : String)
    (hd4 : (goSplit ld '|').get? 4 = some "link-disconnect")
    (hd5 : (goSplit ld '|').get? 5 = some sid)
    (h24 : (goSplit l2 '|').get? 4 = some ev2)
    (h25 : (goSplit l2 '|').get? 5 = some sid)
    (hev : ev2 ≠ "link-connect") :
    step w ld = some (⟨sremove w.sessions sid, w.oracles⟩, []) ∧
    slookup (sremove w.sessions sid) sid = none ∧
    ∀ w' : World, slookup w'.sessions sid = none → step w' l2 = some (w', []) := by
  simp only [List.get?_eq_getElem?] at hd4 hd5 h24 h25
  refine ⟨by simp [step, hd4, hd5], slookup_sremove_self w.sessions sid, ?_⟩
  intro w' hdead
  by_cases hd : ev2 = "link-disconnect"
  · subst hd
    simp [step, h24, h25, sremove_eq_self w'.sessions sid hdead]
  · simp [step, h24, h25, hev, hd, hdead]

/-- C7 witness: disconnecting the only session s1 empties the registry,
and a later `tx-begin` line for s1 against the emptied registry is a
no-op. -/
theorem disconnect_discards_session_then_noop_witness :
    step ⟨[("s1", ⟨none, some [], "s1", ""⟩)], []⟩
        "report|0|t|smtp-in|link-disconnect|s1" = some (⟨[], []⟩, []) ∧
    step ⟨[], []⟩ "report|0|t|smtp-in|tx-begin|s1|Q1" = some (⟨[], []⟩, []) := by
  have h := disconnect_discards_session_then_noop
    (w := ⟨[("s1", ⟨none, some [], "s1", ""⟩)], []⟩)
    "report|0|t|smtp-in|link-disconnect|s1" "report|0|t|smtp-in|tx-begin|s1|Q1"
    "s1" "tx-begin" rfl rfl rfl rfl (by decide)
  exact ⟨h.1, h.2.2 ⟨[], []⟩ rfl⟩

/-- C8 (amended): a line with fewer positional fields than the decoder
indexes (fewer than six `|`-separated fields) is always fatal, and a line
whose event name has no registered handler — or whose registered handler
indexes past the line's fields — is fatal whenever a live session exists
for the line's identifier; with no live session such a line is silently
dropped (see `unknown_event_without_session_not_fatal`). -/
theorem malformed_line_or_nil_handler_fatal
    (w : World) (line : String) (ev sid : String) (s : Session) :
    ((goSplit line '|').get? 5 = none → step w line = none) ∧
    ((goSplit line '|').get? 4 = some ev → (goSplit line '|').get? 5 = some sid →
      ev ≠ "link-connect" → ev ≠ "link-disconnect" →
      slookup w.sessions sid = some s →
      applyEvent ev s (goSplit line '|') w.oracles = none →
      step w line = none) := by
  constructor
  · intro h5
    simp only [List.get?_eq_getElem?] at h5
    cases h4 : (goSplit line '|')[4]? <;> simp [step, h4, h5]
  · intro h4 h5 hc hd hlook happ
    simp only [List.get?_eq_getElem?] at h4 h5
    simp [step, h4, h5, hc, hd, hlook, happ]

/-- C8 witness: a four-field line kills the process, and so does an
unknown event name for a session that is live. -/
theorem malformed_line_or_nil_handler_fatal_witness :
    step ⟨[], []⟩ "a|b|c|d" = none ∧
    step ⟨[("s9", ⟨none, some [], "s9", ""⟩)], []⟩ "a|b|c|d|bogus-event|s9" = none := by
  refine ⟨(malformed_line_or_nil_handler_fatal ⟨[], []⟩ "a|b|c|d" "" ""
      ⟨none, none, "", ""⟩).1 rfl,
    (malformed_line_or_nil_handler_fatal ⟨[("s9", ⟨none, some [], "s9", ""⟩)], []⟩
      "a|b|c|d|bogus-event|s9" "bogus-event" "s9" ⟨none, some [], "s9", ""⟩).2
      rfl rfl (by decide) (by decide) rfl rfl⟩

/-- C10: on a connect event the recorded origin address is the text before
the first colon of the local-address field — `p[0]` of the colon split, so
an un-bracketed IPv6 address is truncated at its first colon — and when
that text is `local` no `Ip` key is recorded at all. -/
theorem connect_origin_address_truncated_at_colon
    (sid rdns laddr : String) (args : List String)
    (h6 : args.get? 6 = some rdns) (h8 : args.get? 8 = some laddr) :
    ((goSplit laddr ':').headI ≠ "local" →
      ∃ m, linkConnect ⟨none, some [], sid, ""⟩ args = some (⟨none, some m, sid, ""⟩, []) ∧
        mlookup m "Ip" = some ((goSplit laddr ':').headI)) ∧
    ((goSplit laddr ':').headI = "local" →
      ∃ m, linkConnect ⟨none, some [], sid, ""⟩ args = some (⟨none, some m, sid, ""⟩, []) ∧
        mlookup m "Ip" = none) := by
  simp only [List.get?_eq_getElem?] at h6 h8
  constructor
  · intro hp
    by_cases hr : rdns = ""
    · exact ⟨[("Pass", "all"), ("Ip", (goSplit laddr ':').headI)],
        by simp [linkConnect, h6, h8, ctrlWrite, mapSet, hp, hr], by simp [mlookup]⟩
    · exact ⟨[("Pass", "all"), ("Ip", (goSplit laddr ':').headI), ("Hostname", rdns)],
        by simp [linkConnect, h6, h8, ctrlWrite, mapSet, hp, hr], by simp [mlookup]⟩
  · intro hp
    by_cases hr : rdns = ""
    · exact ⟨[("Pass", "all")],
        by simp [linkConnect, h6, h8, ctrlWrite, mapSet, hp, hr], by simp [mlookup]⟩
    · exact ⟨[("Pass", "all"), ("Hostname", rdns)],
        by simp [linkConnect, h6, h8, ctrlWrite, mapSet, hp, hr], by simp [mlookup]⟩

/-- C10 witness: the un-bracketed IPv6 local address `2001:db8::1` is
recorded truncated as `2001`, and a `local:...` address records no origin
address. -/
theorem connect_origin_address_truncated_at_colon_witness :
    (∃ m, linkConnect ⟨none, some [], "s1", ""⟩
        ["a", "b", "c", "d", "e", "f", "rd", "g", "2001:db8::1"] =
          some (⟨none, some m, "s1", ""⟩, []) ∧ mlookup m "Ip" = some "2001") ∧
    (∃ m, linkConnect ⟨none, some [], "s1", ""⟩
        ["a", "b", "c", "d", "e", "f", "rd", "g", "local:8025"] =
          some (⟨none, some m, "s1", ""⟩, []) ∧ mlookup m "Ip" = none) :=
  ⟨(connect_origin_address_truncated_at_colon "s1" "rd" "2001:db8::1"
      ["a", "b", "c", "d", "e", "f", "rd", "g", "2001:db8::1"] rfl rfl).1 (by decide),
   (connect_origin_address_truncated_at_colon "s1" "rd" "local:8025"
      ["a", "b", "c", "d", "e", "f", "rd", "g", "local:8025"] rfl rfl).2 (by decide)⟩
